import Mathlib

/-!
Shallow embedding of the SalesAI backend (src/backend/app.py): the viseme
timeline generator, the transcription adapter, and the request pipeline of
the /api/process-speech route.  Durations are modelled exactly: pydub's
`len(audio)` is an integer number of milliseconds, and `duration = ms / 1000.0`
is embedded as the rational `ms / 1000`.  Python's `round(x, 3)` is embedded
as rounding to the nearest multiple of `1/1000`.
-/

namespace SalesAI

/-- One mouth cue of the timeline: Python dict with keys start, end, value. -/
structure MouthCue where
  start : ℚ
  «end» : ℚ
  value : String
deriving DecidableEq, Repr

/-- The value returned by generate_viseme_data: a dict with key mouthCues. -/
structure VisemeData where
  mouthCues : List MouthCue
deriving DecidableEq, Repr

/-- Outcome of pydub reading the staged WAV file in generate_viseme_data:
either a decoded clip with its length in milliseconds, a FileNotFoundError
carrying its message, or any other decoding exception. -/
inductive AudioReadResult where
  | ok (ms : Nat)
  | fileNotFound (msg : String)
  | decodeError (msg : String)
deriving DecidableEq, Repr

/-- duration = len(audio) / 1000.0, in seconds. -/
def durationOf (ms : Nat) : ℚ := (ms : ℚ) / 1000

/-- round(x, 3): rounding to three decimal places. -/
def round3 (q : ℚ) : ℚ := ((round (q * 1000) : ℤ) : ℚ) / 1000

/-- viseme_values = the fixed nine-symbol palette. -/
def visemeValues : List String := ["A", "B", "C", "D", "E", "F", "G", "H", "X"]

/-- num_cues = min(int(duration * 5), 30). -/
def numCues (ms : Nat) : Nat := min (Int.toNat ⌊durationOf ms * 5⌋) 30

/-- Body of the loop of generate_viseme_data: the i-th appended cue. -/
def cueAt (ms : Nat) (i : Nat) : MouthCue :=
  { start := round3 ((i : ℚ) * (durationOf ms / (numCues ms : ℚ)))
    «end» := round3 (((i : ℚ) + 1) * (durationOf ms / (numCues ms : ℚ)))
    value := visemeValues[i % visemeValues.length]! }

/-- Cue list built by generate_viseme_data for a successfully decoded clip of
`ms` milliseconds: empty when duration <= 0 or num_cues == 0, otherwise one
cue per loop iteration i = 0 .. num_cues - 1. -/
def genVisemes (ms : Nat) : List MouthCue :=
  if durationOf ms ≤ 0 then []
  else if numCues ms = 0 then []
  else (List.range (numCues ms)).map (cueAt ms)

/-- generate_viseme_data: on a decoded clip returns the cue timeline; a
FileNotFoundError is re-raised (`raise` in the first except arm); every other
exception is swallowed and an empty timeline is returned. -/
def generate_viseme_data : AudioReadResult → Except String VisemeData
  | .ok ms => .ok ⟨genVisemes ms⟩
  | .fileNotFound msg => .error msg
  | .decodeError _ => .ok ⟨[]⟩

/-- Observable behaviours of the external recognizer call inside
transcribe_audio: recognized text, sr.UnknownValueError, sr.RequestError,
or any other exception. -/
inductive RecognizerOutcome where
  | success (text : String)
  | unknownValue
  | requestError (detail : String)
  | otherError (detail : String)
deriving DecidableEq, Repr

/-- transcribe_audio: `fileFound` is os.path.exists(wav_audio_path). -/
def transcribe_audio (fileFound : Bool) (o : RecognizerOutcome) : String :=
  if fileFound = false then
    "Transcription failed: Input audio file not found."
  else
    match o with
    | .success t => t
    | .unknownValue => ""
    | .requestError e =>
        "Transcription failed: API request error (" ++ e ++ "). Check internet connection."
    | .otherError e =>
        "Transcription failed: Unexpected error (" ++ e ++ ")."

/-- Characters of a string lowercased: s.lower() viewed as a char list. -/
def lowerChars (s : String) : List Char := s.data.map Char.toLower

/-- Python substring membership `sub in l` on char lists. -/
def containsSub (sub : List Char) : List Char → Bool
  | [] => sub.isEmpty
  | c :: rest => sub.isPrefixOf (c :: rest) || containsSub sub rest

/-- The check `"failed" in transcription.lower()` of process_speech. -/
def hasFailed (s : String) : Bool := containsSub "failed".data (lowerChars s)

/-- The request as the route sees it: whether a part named audio is present,
its declared filename, and the byte size of the payload once saved. -/
structure SpeechRequest where
  hasAudio : Bool
  filename : String
  size : Nat
deriving DecidableEq, Repr

/-- External effects of one request: whether audio_file.save succeeds (with
the exception text when not), whether the staged file is locatable at
transcription time, the recognizer outcome, and the pydub read outcome at
viseme-generation time. -/
structure Env where
  saveOk : Bool
  saveErr : String
  stagedExists : Bool
  recOutcome : RecognizerOutcome
  audioRead : AudioReadResult
deriving DecidableEq, Repr

/-- HTTP response of the route, abstracted to status class and JSON fields. -/
inductive Response where
  | ok (transcript : String) (mouthCues : List MouthCue)
      (originalFilename : String) (size : Nat)
  | badRequest (error details : String)
  | serverError (error details : String)
deriving DecidableEq, Repr

/-- HTTP status code of a response. -/
def statusCode : Response → Nat
  | .ok .. => 200
  | .badRequest .. => 400
  | .serverError .. => 500

/-- Observable outcome of one request: the response, whether the finally
block attempted to remove the staged file, whether the file is actually gone,
and whether generate_viseme_data was entered. -/
structure ProcResult where
  resp : Response
  cleanup : Bool
  removed : Bool
  visemeInvoked : Bool
deriving DecidableEq, Repr

/-- process_speech: validation, staging, transcription, conditional viseme
generation, response assembly, and the finally-block cleanup.  `removeOk`
is whether os.remove succeeds in the finally block (its failure is only
logged). -/
def process_speech (req : SpeechRequest) (env : Env) (removeOk : Bool) :
    ProcResult :=
  if req.hasAudio = false then
    ⟨.badRequest "No audio file part"
        "Request must contain a file part named \x27audio\x27.",
      false, false, false⟩
  else if req.filename = "" then
    ⟨.badRequest "No selected file" "Uploaded file has an empty filename.",
      false, false, false⟩
  else if env.saveOk = false then
    ⟨.serverError "An unexpected error occurred during processing" env.saveErr,
      false, false, false⟩
  else
    let inner : Response × Bool :=
      if req.size = 0 then
        (.badRequest "File processing error" "Uploaded audio file is empty.",
          false)
      else
        let transcription := transcribe_audio env.stagedExists env.recOutcome
        if transcription = "" ∨ hasFailed transcription = true then
          (.ok transcription [] req.filename req.size, false)
        else
          match generate_viseme_data env.audioRead with
          | .ok vd => (.ok transcription vd.mouthCues req.filename req.size,
              true)
          | .error m => (.serverError "File processing error"
              ("Could not find intermediate file: " ++ m), true)
    ⟨inner.1, true, removeOk, inner.2⟩

/-- The transcript field of a 200 response, when there is one. -/
def respTranscript : Response → Option String
  | .ok t _ _ _ => some t
  | _ => none

/-- Begins-with relation on strings. -/
def beginsWith (s p : String) : Prop := ∃ r, s = p ++ r

/-! Helper lemmas about the viseme core. -/

theorem numCues_eq (ms : Nat) : numCues ms = min (ms / 200) 30 := by
  have h1 : durationOf ms * 5 = ((5 * ms : ℕ) : ℚ) / ((1000 : ℕ) : ℚ) := by
    unfold durationOf
    push_cast
    ring
  have h2 : Int.toNat ⌊durationOf ms * 5⌋ = (5 * ms) / 1000 := by
    rw [h1, Int.floor_toNat, Nat.floor_div_nat, Nat.floor_natCast]
  rw [numCues, h2]
  congr 1
  omega

theorem durationOf_nonpos_iff (ms : Nat) : durationOf ms ≤ 0 ↔ ms = 0 := by
  unfold durationOf
  rw [div_nonpos_iff]
  norm_num

theorem genVisemes_length (ms : Nat) : (genVisemes ms).length = numCues ms := by
  unfold genVisemes
  by_cases h1 : durationOf ms ≤ 0
  · have h0 : ms = 0 := (durationOf_nonpos_iff ms).mp h1
    subst h0
    simp [numCues_eq]
  · by_cases h2 : numCues ms = 0 <;> simp [h1, h2]

theorem numCues_ne_zero_of_ne_nil (ms : Nat) (h : genVisemes ms ≠ []) :
    numCues ms ≠ 0 := by
  intro h0
  apply h
  have := genVisemes_length ms
  rw [h0] at this
  exact List.length_eq_zero.mp this

theorem genVisemes_eq (ms : Nat) (hn : numCues ms ≠ 0) :
    genVisemes ms = (List.range (numCues ms)).map (cueAt ms) := by
  have hd : ¬ durationOf ms ≤ 0 := by
    intro hle
    have h0 : ms = 0 := (durationOf_nonpos_iff ms).mp hle
    subst h0
    rw [numCues_eq] at hn
    exact hn rfl
  simp [genVisemes, hd, hn]

theorem numCues_cast_le (ms : Nat) : (numCues ms : ℚ) ≤ durationOf ms * 5 := by
  have h0 : (0 : ℚ) ≤ durationOf ms * 5 := by
    unfold durationOf
    positivity
  have hfl : (0 : ℤ) ≤ ⌊durationOf ms * 5⌋ := Int.floor_nonneg.mpr h0
  have h1 : (numCues ms : ℚ) ≤ ((Int.toNat ⌊durationOf ms * 5⌋ : ℕ) : ℚ) := by
    exact_mod_cast min_le_left (Int.toNat ⌊durationOf ms * 5⌋) 30
  have h2 : ((Int.toNat ⌊durationOf ms * 5⌋ : ℕ) : ℤ) = ⌊durationOf ms * 5⌋ :=
    Int.toNat_of_nonneg hfl
  have h3 : ((Int.toNat ⌊durationOf ms * 5⌋ : ℕ) : ℚ) = ((⌊durationOf ms * 5⌋ : ℤ) : ℚ) := by
    exact_mod_cast congrArg (fun z => ((z : ℤ) : ℚ)) h2
  calc (numCues ms : ℚ) ≤ ((Int.toNat ⌊durationOf ms * 5⌋ : ℕ) : ℚ) := h1
    _ = ((⌊durationOf ms * 5⌋ : ℤ) : ℚ) := h3
    _ ≤ durationOf ms * 5 := Int.floor_le _

theorem one_fifth_le_gap (ms : Nat) (hn : numCues ms ≠ 0) :
    1 / 5 ≤ durationOf ms / (numCues ms : ℚ) := by
  have hpos : (0 : ℚ) < (numCues ms : ℚ) := by
    exact_mod_cast Nat.pos_of_ne_zero hn
  rw [div_le_div_iff₀ (by norm_num) hpos]
  have := numCues_cast_le ms
  linarith

theorem round3_sub_le (q : ℚ) : |round3 q - q| ≤ 1 / 2000 := by
  unfold round3
  have h := abs_sub_round (q * 1000)
  rw [abs_sub_comm] at h
  have heq : ((round (q * 1000) : ℤ) : ℚ) / 1000 - q =
      (((round (q * 1000) : ℤ) : ℚ) - q * 1000) / 1000 := by ring
  rw [heq, abs_div]
  have h1000 : |(1000 : ℚ)| = 1000 := by norm_num
  rw [h1000]
  rw [div_le_div_iff₀ (by norm_num) (by norm_num)]
  linarith

theorem round3_lt_of_gap (x y : ℚ) (h : x + 1 / 5 ≤ y) : round3 x < round3 y := by
  have hx := round3_sub_le x
  have hy := round3_sub_le y
  rw [abs_le] at hx hy
  linarith

theorem round3_duration (ms : Nat) : round3 (durationOf ms) = durationOf ms := by
  unfold round3 durationOf
  rw [div_mul_cancel₀ _ (by norm_num : (1000 : ℚ) ≠ 0)]
  rw [round_natCast]
  push_cast
  ring

theorem round3_zero : round3 0 = 0 := by
  unfold round3
  norm_num

theorem genVisemes_getElem (ms i : Nat) (h : i < (genVisemes ms).length) :
    (genVisemes ms)[i] = cueAt ms i := by
  have hn : numCues ms ≠ 0 := by
    intro h0
    rw [genVisemes_length, h0] at h
    omega
  simp only [genVisemes_eq ms hn, List.getElem_map, List.getElem_range]

theorem cueAt_end_eq_start_succ (ms i : Nat) :
    (cueAt ms i).«end» = (cueAt ms (i + 1)).start := by
  unfold cueAt
  simp only
  congr 1
  push_cast
  ring

theorem cueAt_start_lt_end (ms i : Nat) (hn : numCues ms ≠ 0) :
    (cueAt ms i).start < (cueAt ms i).«end» := by
  unfold cueAt
  simp only
  apply round3_lt_of_gap
  have hgap := one_fifth_le_gap ms hn
  have hexp : ((i : ℚ) + 1) * (durationOf ms / (numCues ms : ℚ)) =
      (i : ℚ) * (durationOf ms / (numCues ms : ℚ)) +
        durationOf ms / (numCues ms : ℚ) := by ring
  rw [hexp]
  linarith

theorem cueAt_start_lt_start (ms i j : Nat) (hij : i < j) (hn : numCues ms ≠ 0) :
    (cueAt ms i).start < (cueAt ms j).start := by
  unfold cueAt
  simp only
  apply round3_lt_of_gap
  have hgap := one_fifth_le_gap ms hn
  have h0 : (0 : ℚ) ≤ durationOf ms / (numCues ms : ℚ) :=
    le_trans (by norm_num) hgap
  have hji : (i : ℚ) + 1 ≤ (j : ℚ) := by exact_mod_cast hij
  have hmul := mul_le_mul_of_nonneg_right hji h0
  have hexp : ((i : ℚ) + 1) * (durationOf ms / (numCues ms : ℚ)) =
      (i : ℚ) * (durationOf ms / (numCues ms : ℚ)) +
        durationOf ms / (numCues ms : ℚ) := by ring
  rw [hexp] at hmul
  linarith

theorem cueAt_zero_start (ms : Nat) : (cueAt ms 0).start = 0 := by
  unfold cueAt
  simp [round3_zero]

theorem cueAt_last_end (ms : Nat) (hn : numCues ms ≠ 0) :
    (cueAt ms (numCues ms - 1)).«end» = durationOf ms := by
  unfold cueAt
  simp only
  have hpos : 1 ≤ numCues ms := Nat.pos_of_ne_zero hn
  have h1 : ((numCues ms - 1 : ℕ) : ℚ) + 1 = (numCues ms : ℚ) := by
    rw [Nat.cast_sub hpos]
    push_cast
    ring
  rw [h1]
  have hne : ((numCues ms : ℕ) : ℚ) ≠ 0 := by exact_mod_cast hn
  rw [mul_comm, div_mul_cancel₀ _ hne, round3_duration]

/-- C1: if the computed duration is <= 0 the generator returns an empty
timeline without error; for positive duration the cue count is
min(floor(duration * 5), 30), and when that count is 0 the timeline is
empty. -/
theorem c1_duration_guard_and_cue_count (ms : Nat) :
    (durationOf ms ≤ 0 → generate_viseme_data (.ok ms) = .ok ⟨[]⟩) ∧
    (0 < durationOf ms →
      ((genVisemes ms).length : ℤ) = min ⌊durationOf ms * 5⌋ 30 ∧
      (min ⌊durationOf ms * 5⌋ 30 = 0 → genVisemes ms = [])) := by
  constructor
  · intro h
    have h0 : ms = 0 := (durationOf_nonpos_iff ms).mp h
    subst h0
    norm_num [generate_viseme_data, genVisemes, durationOf]
  · intro hpos
    have hlen : ((genVisemes ms).length : ℤ) = min ⌊durationOf ms * 5⌋ 30 := by
      rw [genVisemes_length]
      unfold numCues
      have h0 : (0 : ℚ) ≤ durationOf ms * 5 :=
        mul_nonneg (le_of_lt hpos) (by norm_num)
      have hfl : (0 : ℤ) ≤ ⌊durationOf ms * 5⌋ := Int.floor_nonneg.mpr h0
      rw [Nat.cast_min, Int.toNat_of_nonneg hfl]
      norm_num
    refine ⟨hlen, fun hmin => ?_⟩
    have h2 : ((genVisemes ms).length : ℤ) = 0 := by rw [hlen, hmin]
    have h3 : (genVisemes ms).length = 0 := by exact_mod_cast h2
    exact List.length_eq_zero.mp h3

/-- C1 witness: at ms = 0 the duration is nonpositive and the generator
returns an empty timeline; at ms = 3000 the duration is positive and the cue
count is min(floor(15), 30) = 15. -/
theorem c1_witness :
    generate_viseme_data (.ok 0) = .ok ⟨[]⟩ ∧
    ((genVisemes 3000).length : ℤ) = min ⌊durationOf 3000 * 5⌋ 30 :=
  ⟨(c1_duration_guard_and_cue_count 0).1 (by norm_num [durationOf]),
   ((c1_duration_guard_and_cue_count 3000).2 (by norm_num [durationOf])).1⟩

/-- C2: the i-th cue starts at i * duration / numCues and ends at
(i + 1) * duration / numCues, both rounded to 3 decimal places, and its
symbol is palette[i mod 9]; a 3.0-second clip yields 15 cues with symbols
A,B,C,D,E,F,G,H,X,A,B,C,D,E,F. -/
theorem c2_cue_shape (ms i : Nat) (h : i < (genVisemes ms).length) :
    (genVisemes ms)[i] =
      { start := round3 ((i : ℚ) * durationOf ms / (numCues ms : ℚ)),
        «end» := round3 (((i : ℚ) + 1) * durationOf ms / (numCues ms : ℚ)),
        value := visemeValues[i % 9]! } ∧
    (genVisemes 3000).length = 15 ∧
    (genVisemes 3000).map MouthCue.value =
      ["A", "B", "C", "D", "E", "F", "G", "H", "X", "A", "B", "C", "D", "E", "F"] := by
  refine ⟨?_, ?_, ?_⟩
  · rw [genVisemes_getElem ms i h]
    unfold cueAt
    rw [← mul_div_assoc, ← mul_div_assoc]
    rfl
  · rw [genVisemes_length, numCues_eq]
    decide
  · have hn : numCues 3000 ≠ 0 := by rw [numCues_eq]; decide
    rw [genVisemes_eq 3000 hn, numCues_eq]
    decide

/-- C2 witness: the first cue of a 3.0-second clip is
start 0.0, end 0.2, symbol A. -/
theorem c2_witness :
    0 < (genVisemes 3000).length ∧
    (genVisemes 3000).map MouthCue.value =
      ["A", "B", "C", "D", "E", "F", "G", "H", "X", "A", "B", "C", "D", "E", "F"] :=
  ⟨by simp [genVisemes_length, numCues_eq],
   (c2_cue_shape 3000 0 (by simp [genVisemes_length, numCues_eq])).2.2⟩

/-- C3: every non-empty generated timeline has start < end on each cue,
adjacent cues sharing the boundary (cue i end = cue i+1 start), first cue
starting at 0, starts strictly ascending, and the last cue ending at the
clip duration (here even exactly, hence within rounding tolerance). -/
theorem c3_cue_invariants (ms : Nat) (hne : genVisemes ms ≠ []) :
    (∀ i (h : i < (genVisemes ms).length),
        ((genVisemes ms)[i]).start < ((genVisemes ms)[i]).«end») ∧
    (∀ i (h : i + 1 < (genVisemes ms).length),
        ((genVisemes ms)[i]).«end» = ((genVisemes ms)[i + 1]).start) ∧
    ((genVisemes ms).head hne).start = 0 ∧
    (∀ i j (hi : i < (genVisemes ms).length) (hj : j < (genVisemes ms).length),
        i < j → ((genVisemes ms)[i]).start < ((genVisemes ms)[j]).start) ∧
    ((genVisemes ms).getLast hne).«end» = durationOf ms := by
  have hn : numCues ms ≠ 0 := numCues_ne_zero_of_ne_nil ms hne
  have hlen : (genVisemes ms).length = numCues ms := genVisemes_length ms
  refine ⟨?_, ?_, ?_, ?_, ?_⟩
  · intro i h
    rw [genVisemes_getElem ms i h]
    exact cueAt_start_lt_end ms i hn
  · intro i h
    rw [genVisemes_getElem ms i (by omega), genVisemes_getElem ms (i + 1) h]
    exact cueAt_end_eq_start_succ ms i
  · rw [List.head_eq_getElem_zero hne, genVisemes_getElem ms 0 (List.length_pos.2 hne)]
    exact cueAt_zero_start ms
  · intro i j hi hj hij
    rw [genVisemes_getElem ms i hi, genVisemes_getElem ms j hj]
    exact cueAt_start_lt_start ms i j hij hn
  · rw [List.getLast_eq_getElem,
      genVisemes_getElem ms ((genVisemes ms).length - 1) (by omega)]
    rw [hlen]
    exact cueAt_last_end ms hn

theorem genVisemes_3000_ne_nil : genVisemes 3000 ≠ [] := by
  have hl : (genVisemes 3000).length = 15 := by
    rw [genVisemes_length, numCues_eq]
    decide
  intro h
  rw [h] at hl
  simp at hl

/-- C3 witness: the 3.0-second timeline is non-empty, its first cue starts
at 0 and its last cue ends at the 3.0-second duration. -/
theorem c3_witness :
    ((genVisemes 3000).head genVisemes_3000_ne_nil).start = 0 ∧
    ((genVisemes 3000).getLast genVisemes_3000_ne_nil).«end» = durationOf 3000 := by
  have h := c3_cue_invariants 3000 genVisemes_3000_ne_nil
  exact ⟨h.2.2.1, h.2.2.2.2⟩

/-- C9: viseme generation is deterministic — equal computed durations give
identical timelines, and identical generate_viseme_data results. -/
theorem c9_deterministic (ms₁ ms₂ : Nat)
    (h : durationOf ms₁ = durationOf ms₂) :
    genVisemes ms₁ = genVisemes ms₂ ∧
    generate_viseme_data (.ok ms₁) = generate_viseme_data (.ok ms₂) := by
  have h1 : (ms₁ : ℚ) = (ms₂ : ℚ) := by
    unfold durationOf at h
    field_simp at h
    exact_mod_cast h
  have h2 : ms₁ = ms₂ := by exact_mod_cast h1
  subst h2
  exact ⟨rfl, rfl⟩

/-- C9 witness: two clips of 3000 ms have the same duration and the same
timeline. -/
theorem c9_witness :
    genVisemes 3000 = genVisemes 3000 ∧
    generate_viseme_data (.ok 3000) = generate_viseme_data (.ok 3000) :=
  c9_deterministic 3000 3000 rfl

/-- C5 counterexample: when reading the audio raises FileNotFoundError the
generator does not degrade to an empty timeline — it re-raises the error, so
the claim that any read/decode error is caught inside the generator is false
at this input. -/
theorem c5_counterexample :
    generate_viseme_data (.fileNotFound "missing.wav") ≠ .ok ⟨[]⟩ ∧
    generate_viseme_data (.fileNotFound "missing.wav") = .error "missing.wav" := by
  constructor
  · intro h
    exact Except.noConfusion h
  · rfl

/-- C5 amended: every error while reading or decoding the audio other than a
missing file degrades to an empty timeline; a FileNotFoundError is re-raised
to the caller. -/
theorem c5_amended (msg : String) :
    generate_viseme_data (.decodeError msg) = .ok ⟨[]⟩ ∧
    generate_viseme_data (.fileNotFound msg) = .error msg :=
  ⟨rfl, rfl⟩

/-! Helper lemmas about strings, substring search and the failure flag. -/

theorem str_data_append (a b : String) : (a ++ b).data = a.data ++ b.data := rfl

theorem lowerChars_append (a b : String) :
    lowerChars (a ++ b) = lowerChars a ++ lowerChars b := by
  unfold lowerChars
  rw [str_data_append, List.map_append]

theorem containsSub_nil_sub (l : List Char) : containsSub [] l = true := by
  induction l with
  | nil => rfl
  | cons c rest ih => simp [containsSub, List.isPrefixOf]

theorem isPrefixOf_append_right (p l t : List Char) (h : p.isPrefixOf l = true) :
    p.isPrefixOf (l ++ t) = true := by
  induction p generalizing l with
  | nil => simp [List.isPrefixOf]
  | cons a as ih =>
    cases l with
    | nil => simp [List.isPrefixOf] at h
    | cons b bs =>
      simp only [List.cons_append, List.isPrefixOf, Bool.and_eq_true] at h ⊢
      exact ⟨h.1, ih bs h.2⟩

theorem containsSub_append_of_left (sub l t : List Char)
    (h : containsSub sub l = true) : containsSub sub (l ++ t) = true := by
  induction l with
  | nil =>
    have hsub : sub = [] := by
      cases sub with
      | nil => rfl
      | cons a as => simp [containsSub, List.isEmpty] at h
    subst hsub
    exact containsSub_nil_sub t
  | cons c rest ih =>
    simp only [containsSub, Bool.or_eq_true, List.cons_append] at h ⊢
    rcases h with h | h
    · exact Or.inl (isPrefixOf_append_right _ _ _ h)
    · exact Or.inr (ih h)

theorem hasFailed_append_left (a b : String) (h : hasFailed a = true) :
    hasFailed (a ++ b) = true := by
  unfold hasFailed at h ⊢
  rw [lowerChars_append]
  exact containsSub_append_of_left _ _ _ h

theorem hasFailed_requestError (e : String) :
    hasFailed (transcribe_audio true (.requestError e)) = true := by
  show hasFailed ("Transcription failed: API request error (" ++ e ++
    "). Check internet connection.") = true
  apply hasFailed_append_left
  apply hasFailed_append_left
  decide

theorem hasFailed_otherError (e : String) :
    hasFailed (transcribe_audio true (.otherError e)) = true := by
  show hasFailed ("Transcription failed: Unexpected error (" ++ e ++ ").") = true
  apply hasFailed_append_left
  apply hasFailed_append_left
  decide

theorem hasFailed_notFound (o : RecognizerOutcome) :
    hasFailed (transcribe_audio false o) = true := by
  show hasFailed "Transcription failed: Input audio file not found." = true
  decide

theorem beginsWith_append_of (s p r : String) (h : s = p ++ r) (t : String) :
    beginsWith (s ++ t) p :=
  ⟨r ++ t, by rw [h, String.append_assoc]⟩

theorem beginsWith_requestError (e : String) :
    beginsWith (transcribe_audio true (.requestError e)) "Transcription failed:" := by
  show beginsWith (("Transcription failed: API request error (" ++ e) ++
    "). Check internet connection.") "Transcription failed:"
  apply beginsWith_append_of _ _ (" API request error (" ++ e)
  rfl

theorem beginsWith_otherError (e : String) :
    beginsWith (transcribe_audio true (.otherError e)) "Transcription failed:" := by
  show beginsWith (("Transcription failed: Unexpected error (" ++ e) ++ ").")
    "Transcription failed:"
  apply beginsWith_append_of _ _ (" Unexpected error (" ++ e)
  rfl

theorem beginsWith_notFound (o : RecognizerOutcome) :
    beginsWith (transcribe_audio false o) "Transcription failed:" :=
  ⟨" Input audio file not found.", rfl⟩

theorem beginsWith_tf_ne_empty (s : String)
    (h : beginsWith s "Transcription failed:") : s ≠ "" := by
  rcases h with ⟨r, rfl⟩
  intro he
  have hlen := congrArg String.length he
  rw [String.length_append] at hlen
  have hl : ("Transcription failed:" : String).length = 21 := rfl
  have h0 : ("" : String).length = 0 := rfl
  omega

/-- C5 amended witness: a concrete decode error degrades to the empty
timeline while a concrete missing file is re-raised. -/
theorem c5_witness :
    generate_viseme_data (.decodeError "bad header") = .ok ⟨[]⟩ ∧
    generate_viseme_data (.fileNotFound "gone.wav") = .error "gone.wav" :=
  ⟨(c5_amended "bad header").1, (c5_amended "gone.wav").2⟩

/-- C6: transcribe_audio totally maps the recognizer outcomes — recognized
text is returned as is; unintelligible audio yields the empty string, which
differs from every failure message; a service error and any other exception
yield distinct failure messages; and a missing staged file short-circuits to
a failure message independent of the recognizer. -/
theorem c6_transcribe_taxonomy (t e₁ e₂ : String) :
    transcribe_audio true (.success t) = t ∧
    transcribe_audio true .unknownValue = "" ∧
    transcribe_audio true (.requestError e₁) =
      "Transcription failed: API request error (" ++ e₁ ++
        "). Check internet connection." ∧
    transcribe_audio true (.otherError e₂) =
      "Transcription failed: Unexpected error (" ++ e₂ ++ ")." ∧
    (∀ o, transcribe_audio false o =
      "Transcription failed: Input audio file not found.") ∧
    beginsWith (transcribe_audio true (.requestError e₁))
      "Transcription failed:" ∧
    beginsWith (transcribe_audio true (.otherError e₂))
      "Transcription failed:" ∧
    (∀ o, beginsWith (transcribe_audio false o) "Transcription failed:") ∧
    transcribe_audio true (.requestError e₁) ≠ "" ∧
    transcribe_audio true (.otherError e₂) ≠ "" ∧
    (∀ o, transcribe_audio false o ≠ "") := by
  refine ⟨rfl, rfl, rfl, rfl, fun o => rfl,
    beginsWith_requestError e₁, beginsWith_otherError e₂,
    fun o => beginsWith_notFound o,
    beginsWith_tf_ne_empty _ (beginsWith_requestError e₁),
    beginsWith_tf_ne_empty _ (beginsWith_otherError e₂),
    fun o => beginsWith_tf_ne_empty _ (beginsWith_notFound o)⟩

/-- C6 witness: at concrete inputs, success passes the text through,
unintelligible audio gives the empty string, and a concrete service error
gives a non-empty failure message. -/
theorem c6_witness :
    transcribe_audio true (.success "hello world") = "hello world" ∧
    transcribe_audio true .unknownValue = "" ∧
    transcribe_audio true (.requestError "net down") ≠ "" :=
  ⟨(c6_transcribe_taxonomy "hello world" "net down" "oops").1,
   (c6_transcribe_taxonomy "hello world" "net down" "oops").2.1,
   (c6_transcribe_taxonomy "hello world" "net down" "oops").2.2.2.2.2.2.2.2.1⟩

/-- C7: missing audio part, empty filename and empty staged payload are the
only rejections at the validation/staging layer, each a 400 with the stated
error field; any request with an audio part, a non-empty filename (of any
extension) and a non-empty payload is never answered with a 400. -/
theorem c7_validation (req : SpeechRequest) (env : Env) (removeOk : Bool) :
    (req.hasAudio = false →
      (process_speech req env removeOk).resp =
        .badRequest "No audio file part"
          "Request must contain a file part named \x27audio\x27.") ∧
    (req.hasAudio = true → req.filename = "" →
      (process_speech req env removeOk).resp =
        .badRequest "No selected file" "Uploaded file has an empty filename.") ∧
    (req.hasAudio = true → req.filename ≠ "" → env.saveOk = true →
      req.size = 0 →
      (process_speech req env removeOk).resp =
        .badRequest "File processing error" "Uploaded audio file is empty.") ∧
    (req.hasAudio = true → req.filename ≠ "" → req.size ≠ 0 →
      ∀ e d, (process_speech req env removeOk).resp ≠ .badRequest e d) := by
  refine ⟨?_, ?_, ?_, ?_⟩
  · intro h
    simp [process_speech, h]
  · intro h1 h2
    simp [process_speech, h1, h2]
  · intro h1 h2 h3 h4
    simp [process_speech, h1, h2, h3, h4]
  · intro h1 h2 h3 e d
    by_cases h4 : env.saveOk = true
    · by_cases h5 : (transcribe_audio env.stagedExists env.recOutcome = "" ∨
        hasFailed (transcribe_audio env.stagedExists env.recOutcome) = true)
      · simp [process_speech, h1, h2, h3, h4, h5]
      · cases hg : generate_viseme_data env.audioRead with
        | ok vd => simp [process_speech, h1, h2, h3, h4, h5, hg]
        | error m => simp [process_speech, h1, h2, h3, h4, h5, hg]
    · have h4f : env.saveOk = false := by
        cases henv : env.saveOk
        · rfl
        · exact absurd henv h4
      simp [process_speech, h1, h2, h4f]

/-- C7 witness: a request without an audio part gets the 400 with error
field No audio file part; a zero-byte upload named clip.wav gets the 400
reporting an empty payload. -/
theorem c7_witness :
    (process_speech ⟨false, "clip.wav", 4⟩
        ⟨true, "boom", true, .success "hi", .decodeError "x"⟩ true).resp =
      .badRequest "No audio file part"
        "Request must contain a file part named \x27audio\x27." ∧
    (process_speech ⟨true, "clip.wav", 0⟩
        ⟨true, "boom", true, .success "hi", .decodeError "x"⟩ true).resp =
      .badRequest "File processing error" "Uploaded audio file is empty." :=
  ⟨(c7_validation ⟨false, "clip.wav", 4⟩
      ⟨true, "boom", true, .success "hi", .decodeError "x"⟩ true).1 rfl,
   (c7_validation ⟨true, "clip.wav", 0⟩
      ⟨true, "boom", true, .success "hi", .decodeError "x"⟩ true).2.2.1
      rfl (by decide) rfl rfl⟩

/-- C8: whenever staging succeeded the finally block attempts the removal of
the staged file on every exit path, the file is gone exactly when the removal
call succeeds, and whether the removal succeeds never changes the response. -/
theorem c8_cleanup (req : SpeechRequest) (env : Env) (b₁ b₂ : Bool)
    (h1 : req.hasAudio = true) (h2 : req.filename ≠ "")
    (h3 : env.saveOk = true) :
    (process_speech req env b₁).cleanup = true ∧
    (process_speech req env b₁).removed = b₁ ∧
    (process_speech req env b₁).resp = (process_speech req env b₂).resp := by
  refine ⟨?_, ?_, ?_⟩ <;> simp [process_speech, h1, h2, h3]

/-- C8 witness: with a failing removal call on a successful request the
cleanup is still attempted and the response equals the one with a
successful removal. -/
theorem c8_witness :
    (process_speech ⟨true, "clip.wav", 4⟩
        ⟨true, "boom", true, .success "hi", .decodeError "x"⟩ false).cleanup = true ∧
    (process_speech ⟨true, "clip.wav", 4⟩
        ⟨true, "boom", true, .success "hi", .decodeError "x"⟩ false).removed = false ∧
    (process_speech ⟨true, "clip.wav", 4⟩
        ⟨true, "boom", true, .success "hi", .decodeError "x"⟩ false).resp =
      (process_speech ⟨true, "clip.wav", 4⟩
        ⟨true, "boom", true, .success "hi", .decodeError "x"⟩ true).resp :=
  c8_cleanup ⟨true, "clip.wav", 4⟩
    ⟨true, "boom", true, .success "hi", .decodeError "x"⟩ false true
    rfl (by decide) rfl

/-- C10: a 200 response carries exactly the string transcribe_audio
returned as its transcript; when the recognizer call hits a service error or
an unexpected exception the request still ends 200 with an empty timeline
and a non-empty transcript beginning with the text Transcription failed:. -/
theorem c10_transcript_fidelity (req : SpeechRequest) (env : Env)
    (removeOk : Bool) (h1 : req.hasAudio = true) (h2 : req.filename ≠ "")
    (h3 : env.saveOk = true) (h4 : req.size ≠ 0) :
    (∀ t cues fn sz,
      (process_speech req env removeOk).resp = .ok t cues fn sz →
        t = transcribe_audio env.stagedExists env.recOutcome) ∧
    (∀ e, env.recOutcome = .requestError e ∨ env.recOutcome = .otherError e →
      (process_speech req env removeOk).resp =
        .ok (transcribe_audio env.stagedExists env.recOutcome) []
          req.filename req.size ∧
      beginsWith (transcribe_audio env.stagedExists env.recOutcome)
        "Transcription failed:" ∧
      transcribe_audio env.stagedExists env.recOutcome ≠ "") := by
  constructor
  · intro t cues fn sz h
    by_cases h5 : (transcribe_audio env.stagedExists env.recOutcome = "" ∨
      hasFailed (transcribe_audio env.stagedExists env.recOutcome) = true)
    · simp [process_speech, h1, h2, h3, h4, h5] at h
      exact h.1.symm
    · cases hg : generate_viseme_data env.audioRead with
      | ok vd =>
        simp [process_speech, h1, h2, h3, h4, h5, hg] at h
        exact h.1.symm
      | error m =>
        simp [process_speech, h1, h2, h3, h4, h5, hg] at h
  · intro e he
    have hbw : beginsWith (transcribe_audio env.stagedExists env.recOutcome)
        "Transcription failed:" := by
      cases hb : env.stagedExists with
      | false => exact beginsWith_notFound env.recOutcome
      | true =>
        rcases he with he | he <;> rw [he]
        · exact beginsWith_requestError e
        · exact beginsWith_otherError e
    have hf : hasFailed (transcribe_audio env.stagedExists env.recOutcome) =
        true := by
      cases hb : env.stagedExists with
      | false => exact hasFailed_notFound env.recOutcome
      | true =>
        rcases he with he | he <;> rw [he]
        · exact hasFailed_requestError e
        · exact hasFailed_otherError e
    refine ⟨?_, hbw, beginsWith_tf_ne_empty _ hbw⟩
    simp [process_speech, h1, h2, h3, h4, hf]

/-- C10 witness: a request whose recognizer call raises a service error is
answered 200 with the API-request-error transcript and no cues. -/
theorem c10_witness :
    (process_speech ⟨true, "clip.wav", 4⟩
        ⟨true, "boom", true, .requestError "net down", .decodeError "x"⟩
        true).resp =
      .ok (transcribe_audio true (.requestError "net down")) [] "clip.wav" 4 :=
  ((c10_transcript_fidelity ⟨true, "clip.wav", 4⟩
      ⟨true, "boom", true, .requestError "net down", .decodeError "x"⟩ true
      rfl (by decide) rfl (by decide)).2 "net down" (Or.inl rfl)).1

/-- C4 counterexample: the recognizer succeeds with the non-empty text
mission failed, yet the pipeline does not invoke viseme generation — it takes
the skip branch and returns an empty timeline — because the substring check
failed in transcription.lower() also fires on genuine transcripts. -/
theorem c4_counterexample :
    transcribe_audio true (.success "mission failed") = "mission failed" ∧
    "mission failed" ≠ "" ∧
    (process_speech ⟨true, "clip.wav", 4⟩
        ⟨true, "boom", true, .success "mission failed", .decodeError "x"⟩
        true).visemeInvoked = false ∧
    (process_speech ⟨true, "clip.wav", 4⟩
        ⟨true, "boom", true, .success "mission failed", .decodeError "x"⟩
        true).resp = .ok "mission failed" [] "clip.wav" 4 :=
  ⟨rfl, by decide, by decide, by decide⟩

/-- C4 amended: viseme generation is entered exactly when the transcript
string is non-empty and does not contain the substring failed
case-insensitively; empty transcripts and every failure outcome (missing
staged file, service error, unexpected exception, unintelligible audio) skip
it and yield a 200 response with an empty timeline, but a successful
transcript containing the word failed is skipped as well. -/
theorem c4_skip_condition (req : SpeechRequest) (env : Env) (removeOk : Bool)
    (h1 : req.hasAudio = true) (h2 : req.filename ≠ "")
    (h3 : env.saveOk = true) (h4 : req.size ≠ 0) :
    ((process_speech req env removeOk).visemeInvoked = true ↔
      (transcribe_audio env.stagedExists env.recOutcome ≠ "" ∧
        hasFailed (transcribe_audio env.stagedExists env.recOutcome) = false)) ∧
    ((process_speech req env removeOk).visemeInvoked = false →
      (process_speech req env removeOk).resp =
        .ok (transcribe_audio env.stagedExists env.recOutcome) []
          req.filename req.size) ∧
    (env.stagedExists = false →
      (process_speech req env removeOk).visemeInvoked = false) ∧
    (env.recOutcome = .unknownValue →
      (process_speech req env removeOk).visemeInvoked = false) ∧
    (∀ e, env.recOutcome = .requestError e →
      (process_speech req env removeOk).visemeInvoked = false) ∧
    (∀ e, env.recOutcome = .otherError e →
      (process_speech req env removeOk).visemeInvoked = false) := by
  by_cases h5 : (transcribe_audio env.stagedExists env.recOutcome = "" ∨
      hasFailed (transcribe_audio env.stagedExists env.recOutcome) = true)
  · have hinv : (process_speech req env removeOk).visemeInvoked = false := by
      simp [process_speech, h1, h2, h3, h4, h5]
    have hresp : (process_speech req env removeOk).resp =
        .ok (transcribe_audio env.stagedExists env.recOutcome) []
          req.filename req.size := by
      simp [process_speech, h1, h2, h3, h4, h5]
    refine ⟨?_, fun _ => hresp, fun _ => hinv, fun _ => hinv,
      fun _ _ => hinv, fun _ _ => hinv⟩
    rw [hinv]
    simp only [Bool.false_eq_true, false_iff]
    intro hcontra
    rcases h5 with h5 | h5
    · exact hcontra.1 h5
    · rw [hcontra.2] at h5
      exact Bool.false_ne_true h5
  · have hts : transcribe_audio env.stagedExists env.recOutcome ≠ "" ∧
        hasFailed (transcribe_audio env.stagedExists env.recOutcome) = false := by
      push_neg at h5
      exact ⟨h5.1, by simpa using h5.2⟩
    have hinv : (process_speech req env removeOk).visemeInvoked = true := by
      cases hg : generate_viseme_data env.audioRead with
      | ok vd => simp [process_speech, h1, h2, h3, h4, h5, hg]
      | error m => simp [process_speech, h1, h2, h3, h4, h5, hg]
    refine ⟨by rw [hinv]; simp [hts], ?_, ?_, ?_, ?_, ?_⟩
    · intro hfalse
      rw [hinv] at hfalse
      exact absurd hfalse (by simp)
    · intro hse
      exact absurd (Or.inr (by rw [hse]; exact hasFailed_notFound env.recOutcome)) h5
    · intro he
      cases hb : env.stagedExists with
      | false =>
        exact absurd (Or.inr (by rw [hb]; exact hasFailed_notFound env.recOutcome)) h5
      | true => exact absurd (Or.inl (by rw [hb, he]; rfl)) h5
    · intro e he
      cases hb : env.stagedExists with
      | false =>
        exact absurd (Or.inr (by rw [hb]; exact hasFailed_notFound env.recOutcome)) h5
      | true =>
        exact absurd (Or.inr (by rw [hb, he]; exact hasFailed_requestError e)) h5
    · intro e he
      cases hb : env.stagedExists with
      | false =>
        exact absurd (Or.inr (by rw [hb]; exact hasFailed_notFound env.recOutcome)) h5
      | true =>
        exact absurd (Or.inr (by rw [hb, he]; exact hasFailed_otherError e)) h5

/-- C4 witness: a request with the successful non-empty transcript
hello world does invoke viseme generation. -/
theorem c4_witness :
    (process_speech ⟨true, "clip.wav", 4⟩
        ⟨true, "boom", true, .success "hello world", .decodeError "x"⟩
        true).visemeInvoked = true :=
  ((c4_skip_condition ⟨true, "clip.wav", 4⟩
      ⟨true, "boom", true, .success "hello world", .decodeError "x"⟩ true
      rfl (by decide) rfl (by decide)).1).mpr ⟨by decide, by decide⟩

end SalesAI
